import Mathlib

/-!
Verification of the `libby` COSMIC GUI demo (`src/app.rs`).

The animated canvas (`KawaiiCanvas::draw`) is embedded as a pure function over
exact rationals.  The `f32` transcendental primitives (`cos`, `sin`, `sqrt`) are
passed in as oracle parameters `c s sq : ℚ → ℚ`; theorems that need their
defining properties assume them at the points where the code evaluates them
(e.g. `(sq d) ^ 2 = d` with `0 ≤ sq d` for the square root of the concrete
squared distance).  `f32` division is embedded by `fdiv`, which returns `none`
when the divisor is zero: the one place the code can divide by zero is
`dx / distance` with `distance = 0`, which in IEEE arithmetic is `0.0 / 0.0`,
a NaN; `none` marks that the resulting coordinate is no longer a real number.

The event-handling side (`AppModel::update`, `AppModel::dialog`) is embedded as
a state-transition function on a flat record mirroring the fields of `AppModel`
that the handled messages read or write.
-/

namespace Libby

/-! ## Animation constants (`KawaiiCanvas::draw`, lines 536, 545-546) -/

/-- `let loop_duration = 30.0;` -/
def loop_duration : ℚ := 30

/-- `let avoidance_radius = 20.0;` -/
def avoidance_radius : ℚ := 20

/-- `let repulsion_strength = 15.0;` -/
def repulsion_strength : ℚ := 15

/-! ## Elapsed-time wrapping (line 537) -/

/-- Truncation toward zero, as used by Rust's `%` on floats. -/
def truncQ (q : ℚ) : ℤ := if 0 ≤ q then ⌊q⌋ else ⌈q⌉

/-- Rust `a % b` on floats: the remainder of truncating division. -/
def f32Rem (a b : ℚ) : ℚ := a - b * (truncQ (a / b) : ℚ)

/-- `let loop_time = (time % loop_duration) * (PI * 2.0) / loop_duration;`
The constant `std::f32::consts::PI` is kept symbolic as the parameter `pi`. -/
def loopTime (pi t : ℚ) : ℚ := f32Rem t loop_duration * (pi * 2) / loop_duration

/-! ## Cursor handling (lines 540-544) -/

/-- `cursor.position()` mapped into frame coordinates, or the `(-1.0, -1.0)`
sentinel when the cursor is not over the canvas. -/
def mousePos (cursor : Option (ℚ × ℚ)) (ox oy : ℚ) : ℚ × ℚ :=
  match cursor with
  | some p => (p.1 - ox, p.2 - oy)
  | none => (-1, -1)

/-! ## Repulsion step (lines 557-565, repeated at 585-593 and 624-632) -/

/-- `f32` division with the divide-by-zero case marked: the code only divides
by `distance`, and when `distance = 0` the numerator is also `0`, so the IEEE
result is NaN; `none` records that the value left the reals. -/
def fdiv (a b : ℚ) : Option ℚ := if b = 0 then none else some (a / b)

/-- The mouse-avoidance step applied to a computed position `(x, y)`:

    let dx = x - mouse_pos.x;
    let dy = y - mouse_pos.y;
    let distance = (dx * dx + dy * dy).sqrt();
    if distance < avoidance_radius {
        let repel_factor = (1.0 - distance / avoidance_radius) * repulsion_strength;
        x += dx / distance * repel_factor;
        y += dy / distance * repel_factor;
    }

`sq` is the `f32` square-root oracle. -/
def repelStep (sq : ℚ → ℚ) (x y mx my : ℚ) : Option (ℚ × ℚ) :=
  let dx := x - mx
  let dy := y - my
  let distance := sq (dx * dx + dy * dy)
  if distance < avoidance_radius then
    match fdiv dx distance, fdiv dy distance with
    | some ux, some uy =>
        let repel_factor := (1 - distance / avoidance_radius) * repulsion_strength
        some (x + ux * repel_factor, y + uy * repel_factor)
    | _, _ => none
  else
    some (x, y)

/-- The squared distance `dx * dx + dy * dy` the repulsion step feeds to `sqrt`. -/
def sqDist (p q : ℚ × ℚ) : ℚ := (p.1 - q.1) * (p.1 - q.1) + (p.2 - q.2) * (p.2 - q.2)

/-! ## Per-kind phase offsets (lines 550, 579, 617) -/

/-- `let phase = i as f32 * 1.2566;  // 2π/5 for even distribution` -/
def circlePhase (i : ℕ) : ℚ := (i : ℚ) * 1.2566

/-- `let phase = i as f32 * 0.785;  // 2π/8 for even distribution` -/
def heartPhase (i : ℕ) : ℚ := (i : ℚ) * 0.785

/-- `let phase = i as f32 * 0.524;  // 2π/12 for even distribution` -/
def starPhase (i : ℕ) : ℚ := (i : ℚ) * 0.524

/-! ## Orbit positions before repulsion (lines 549-555, 578-583, 616-621).
`lt` is the already-wrapped `loop_time`; `(cx, cy)` is the frame center. -/

/-- Background circle `i`: orbit position before mouse avoidance. -/
def orbitCircle (c s : ℚ → ℚ) (cx cy lt : ℚ) (i : ℕ) : ℚ × ℚ :=
  let angle := lt * 0.3 + circlePhase i
  let orbit_radius := 60 + (i : ℚ) * 25
  (cx + c angle * orbit_radius, cy + s angle * orbit_radius * 0.7)

/-- Background circle `i`: fill radius `30.0 + (loop_time * 1.5 + phase).sin() * 8.0`. -/
def circleRadius (s : ℚ → ℚ) (lt : ℚ) (i : ℕ) : ℚ :=
  30 + s (lt * 1.5 + circlePhase i) * 8

/-- Heart `i`: orbit position before mouse avoidance. -/
def orbitHeart (c s : ℚ → ℚ) (cx cy lt : ℚ) (i : ℕ) : ℚ × ℚ :=
  let t := lt * 0.8 + heartPhase i
  let orbit_radius := 90 + ((i % 3 : ℕ) : ℚ) * 20
  (cx + c t * orbit_radius, cy + s t * orbit_radius * 0.6 + s (t * 2) * 15)

/-- Heart `i`: pulsing size `8.0 + (t * 2.5).sin() * 3.0`. -/
def heartSize (s : ℚ → ℚ) (lt : ℚ) (i : ℕ) : ℚ :=
  8 + s ((lt * 0.8 + heartPhase i) * 2.5) * 3

/-- Star `i`: orbit position before mouse avoidance. -/
def orbitStar (c s : ℚ → ℚ) (cx cy lt : ℚ) (i : ℕ) : ℚ × ℚ :=
  let t := lt * 1.2 + starPhase i
  let orbit_radius := 120 + ((i % 4 : ℕ) : ℚ) * 15
  (cx + c t * orbit_radius, cy + s t * orbit_radius * 0.8)

/-- Star `i`: size `4.0 + (t * 3.0).sin().abs() * 2.0`. -/
def starSize (s : ℚ → ℚ) (lt : ℚ) (i : ℕ) : ℚ :=
  4 + |s ((lt * 1.2 + starPhase i) * 3)| * 2

/-- Star `i`: rotation `t * 0.5`. -/
def starRotation (lt : ℚ) (i : ℕ) : ℚ := (lt * 1.2 + starPhase i) * 0.5

/-! ## Final positions: orbit followed by the repulsion step -/

/-- Final position of background circle `i`. -/
def circlePos (c s sq : ℚ → ℚ) (cx cy mx my lt : ℚ) (i : ℕ) : Option (ℚ × ℚ) :=
  let p := orbitCircle c s cx cy lt i
  repelStep sq p.1 p.2 mx my

/-- Final position of heart `i`. -/
def heartPos (c s sq : ℚ → ℚ) (cx cy mx my lt : ℚ) (i : ℕ) : Option (ℚ × ℚ) :=
  let p := orbitHeart c s cx cy lt i
  repelStep sq p.1 p.2 mx my

/-- Final position of star `i`. -/
def starPos (c s sq : ℚ → ℚ) (cx cy mx my lt : ℚ) (i : ℕ) : Option (ℚ × ℚ) :=
  let p := orbitStar c s cx cy lt i
  repelStep sq p.1 p.2 mx my

/-- The shape placements one call to `KawaiiCanvas::draw` emits: position,
size data and (for circles) the palette index `i % 4`, (for stars) rotation. -/
structure DrawOut where
  circles : List (Option (ℚ × ℚ) × ℚ × ℕ)
  hearts : List (Option (ℚ × ℚ) × ℚ)
  stars : List (Option (ℚ × ℚ) × ℚ × ℚ)
deriving DecidableEq, Repr

/-- All placements as a function of center, mouse position and wrapped time. -/
def drawCore (c s sq : ℚ → ℚ) (cx cy mx my lt : ℚ) : DrawOut where
  circles := (List.range 5).map fun i =>
    (circlePos c s sq cx cy mx my lt i, circleRadius s lt i, i % 4)
  hearts := (List.range 8).map fun i =>
    (heartPos c s sq cx cy mx my lt i, heartSize s lt i)
  stars := (List.range 12).map fun i =>
    (starPos c s sq cx cy mx my lt i, starSize s lt i, starRotation lt i)

/-- `KawaiiCanvas::draw`.  The unused parameters mirror the Rust signature:
`st` is the canvas `State` (which is `()`), `renderer` and `theme` are the
host-framework arguments the placement computation never reads.  `t` is the
elapsed time `self.animation_time.elapsed().as_secs_f32()`, `(ox, oy, bw, bh)`
are `bounds` and `cursor` is the optional global cursor position. -/
def KawaiiCanvas_draw {R Θ : Type} (_st : Unit) (_renderer : R) (_theme : Θ)
    (pi : ℚ) (c s sq : ℚ → ℚ) (ox oy bw bh : ℚ)
    (cursor : Option (ℚ × ℚ)) (t : ℚ) : DrawOut :=
  let cx := bw / 2
  let cy := bh / 2
  let lt := loopTime pi t
  let m := mousePos cursor ox oy
  drawCore c s sq cx cy m.1 m.2 lt

/-! ## Application state and message handling (`AppModel`) -/

/-- The page to display in the application. -/
inductive Page
  | Page1
  | Page2
  | Page3
deriving DecidableEq, Repr

/-- The context page to display in the context drawer. -/
inductive ContextPage
  | About
  | Settings
deriving DecidableEq, Repr

/-- Modelled from the spec: `src/config.rs` is not among the sources; the
configuration is "a single persisted string field (username) with a version
tag", and only the username ever enters the handled messages. -/
structure Config where
  username : String
deriving DecidableEq, Repr

/-- The state fields of `AppModel` (plus `core.window.show_context`, the
framework-owned drawer flag the update handler reads and writes) that message
handling touches.  `navActive` models `nav.data::<Page>(nav.active()).copied()`. -/
structure AppModelS where
  context_page : ContextPage
  show_context : Bool
  show_popup : Bool
  config : Config
  animation_time : ℚ
  navActive : Option Page
deriving DecidableEq, Repr

/-- Messages emitted by the application and its widgets. -/
inductive Message
  | OpenRepositoryUrl
  | OpenAuthorUrl
  | SubscriptionChannel
  | ToggleContextPage (cp : ContextPage)
  | TogglePopup
  | UpdateConfig (c : Config)
  | LaunchUrl (url : String)
  | Tick
  | GoToPage3
  | UpdateUsername (u : String)
  | SaveSettings
deriving DecidableEq, Repr

/-- The state produced by `AppModel::init` (lines 103-123): default context
page `About`, popup hidden, nav with page 1 activated, `animation_time`
recorded as the startup instant `now`, configuration as loaded (`cfg`). -/
def init (cfg : Config) (now : ℚ) : AppModelS where
  context_page := ContextPage.About
  show_context := false
  show_popup := false
  config := cfg
  animation_time := now
  navActive := some Page.Page1

/-- The state effect of `AppModel::update` (lines 292-360).  Branches whose
only effect is an outbound side effect (opening a URL, printing, writing the
config file) leave the state unchanged, as the Rust code does. -/
def update (msg : Message) (s : AppModelS) : AppModelS :=
  match msg with
  | Message.OpenRepositoryUrl => s
  | Message.OpenAuthorUrl => s
  | Message.SubscriptionChannel => s
  | Message.ToggleContextPage cp =>
      if s.context_page = cp then
        { s with show_context := !s.show_context }
      else
        { s with context_page := cp, show_context := true }
  | Message.TogglePopup => { s with show_popup := !s.show_popup }
  | Message.UpdateConfig c => { s with config := c }
  | Message.LaunchUrl _ => s
  | Message.Tick => s
  | Message.GoToPage3 => { s with navActive := some Page.Page3 }
  | Message.UpdateUsername u => { s with config := { s.config with username := u } }
  | Message.SaveSettings => s

/-- `self.nav.data::<Page>(self.nav.active()).copied().unwrap_or(Page::Page1)`. -/
def activePage (s : AppModelS) : Page := s.navActive.getD Page.Page1

/-- `AppModel::dialog` (lines 370-394), reduced to the title of the dialog it
returns, if any. -/
def dialog (s : AppModelS) : Option String :=
  if s.show_popup then
    match activePage s with
    | Page.Page1 => some "This is a popup on page 1!"
    | _ => none
  else
    none

/-! ## Helper lemmas about the repulsion step -/

/-- If the (f32) distance value is at least the avoidance radius, the guard
`distance < avoidance_radius` is false and the position passes through. -/
theorem repelStep_of_far (sq : ℚ → ℚ) (x y mx my : ℚ)
    (h : avoidance_radius ≤ sq ((x - mx) * (x - mx) + (y - my) * (y - my))) :
    repelStep sq x y mx my = some (x, y) := by
  simp only [repelStep]
  rw [if_neg (not_lt.mpr h)]

/-- A nonnegative square root of a quantity at least `avoidance_radius ^ 2`
is at least `avoidance_radius`. -/
theorem le_sqrt_of_sq_le (D d : ℚ) (hnn : 0 ≤ D) (hpy : D ^ 2 = d)
    (hfar : avoidance_radius ^ 2 ≤ d) : avoidance_radius ≤ D := by
  rw [avoidance_radius] at *
  nlinarith [hnn, hpy, hfar]

/-! ## Claim theorems -/

/-- Claim C1.  The claim says the zero-distance case is special-cased so that
no division by zero occurs and the position stays well defined.  The code has
no such special case: for a shape exactly at the cursor position, `dx`, `dy`
and `distance` are all `0`, the guard `0 < avoidance_radius` is taken, and the
code computes `dx / distance = 0.0 / 0.0`, a NaN, which is added into the
coordinates.  In the embedding (where `none` marks a NaN coordinate) the
repulsion step therefore yields `none`, not a well-defined position. -/
theorem repel_zero_distance_undefined (sq : ℚ → ℚ) (x y : ℚ) (hz : sq 0 = 0) :
    repelStep sq x y x y = none := by
  simp [repelStep, fdiv, hz, avoidance_radius]

/-- Witness for C1: a concrete shape at `(100, 100)` with the cursor exactly
there; the repulsion step produces a NaN position. -/
theorem repel_zero_distance_undefined_witness :
    repelStep (fun _ => 0) 100 100 100 100 = none :=
  repel_zero_distance_undefined (fun _ => 0) 100 100 rfl

/-- Claim C2: a shape whose true distance to the cursor is at least the
avoidance radius (equivalently, whose squared distance is at least
`avoidance_radius ^ 2`) is left exactly unchanged by the repulsion step.
`sq` is assumed to be a correct square root at the one point the code
evaluates it. -/
theorem repel_outside_radius_unchanged (sq : ℚ → ℚ) (x y mx my : ℚ)
    (hnn : 0 ≤ sq ((x - mx) * (x - mx) + (y - my) * (y - my)))
    (hpy : sq ((x - mx) * (x - mx) + (y - my) * (y - my)) ^ 2
            = (x - mx) * (x - mx) + (y - my) * (y - my))
    (hfar : avoidance_radius ^ 2 ≤ (x - mx) * (x - mx) + (y - my) * (y - my)) :
    repelStep sq x y mx my = some (x, y) :=
  repelStep_of_far sq x y mx my (le_sqrt_of_sq_le _ _ hnn hpy hfar)

/-- Witness for C2: the shape at `(25, 0)` with the cursor at the origin is at
distance `25 ≥ 20` and passes through the repulsion step unchanged. -/
theorem repel_outside_radius_unchanged_witness :
    repelStep (fun _ => 25) 25 0 0 0 = some (25, 0) :=
  repel_outside_radius_unchanged (fun _ => 25) 25 0 0 0 (by norm_num) (by norm_num)
    (by norm_num [avoidance_radius])

/-- Claim C3: a shape at distance `0 < dist < avoidance_radius` from the
cursor is displaced by `(1 - dist / avoidance_radius) * repulsion_strength`
times the unit vector pointing from the cursor to the shape, and ends up
strictly farther (in squared distance) from the cursor than before. -/
theorem repel_inside_radius_pushes_away (sq : ℚ → ℚ) (x y mx my d dist : ℚ)
    (hd : d = (x - mx) * (x - mx) + (y - my) * (y - my))
    (hdist : dist = sq d)
    (hpy : dist ^ 2 = d)
    (hpos : 0 < dist)
    (hlt : dist < avoidance_radius) :
    ∃ x2 y2,
      repelStep sq x y mx my = some (x2, y2) ∧
      x2 - x = (x - mx) / dist * ((1 - dist / avoidance_radius) * repulsion_strength) ∧
      y2 - y = (y - my) / dist * ((1 - dist / avoidance_radius) * repulsion_strength) ∧
      d < (x2 - mx) * (x2 - mx) + (y2 - my) * (y2 - my) := by
  have hne : dist ≠ 0 := ne_of_gt hpos
  refine ⟨x + (x - mx) / dist * ((1 - dist / avoidance_radius) * repulsion_strength),
      y + (y - my) / dist * ((1 - dist / avoidance_radius) * repulsion_strength),
      ?_, by ring, by ring, ?_⟩
  · simp only [repelStep, fdiv]
    rw [← hd, ← hdist]
    simp only [if_pos hlt, if_neg hne]
  · set f := (1 - dist / avoidance_radius) * repulsion_strength with hfdef
    have hlt20 : dist < 20 := by rwa [avoidance_radius] at hlt
    have hf : 0 < f := by
      rw [hfdef, avoidance_radius, repulsion_strength]
      nlinarith [hlt20, hpos]
    have hds : dist ^ 2 = (x - mx) * (x - mx) + (y - my) * (y - my) := hpy.trans hd
    have h1 : x + (x - mx) / dist * f - mx = (x - mx) * (1 + f / dist) := by ring
    have h2 : y + (y - my) / dist * f - my = (y - my) * (1 + f / dist) := by ring
    rw [h1, h2]
    have h4 : (x - mx) * (1 + f / dist) * ((x - mx) * (1 + f / dist)) +
        (y - my) * (1 + f / dist) * ((y - my) * (1 + f / dist)) =
        dist ^ 2 * (1 + f / dist) ^ 2 := by
      linear_combination (-(1 + f / dist) ^ 2) * hds
    have h5 : dist ^ 2 * (1 + f / dist) ^ 2 = (dist + f) ^ 2 := by
      field_simp
    rw [h4, h5, ← hpy]
    nlinarith [hf, hpos]

/-- Witness for C3: the shape at `(3, 4)`, cursor at the origin, distance `5`:
the repulsion step moves it strictly farther away with the stated displacement. -/
theorem repel_inside_radius_pushes_away_witness :
    ∃ x2 y2,
      repelStep (fun _ => 5) 3 4 0 0 = some (x2, y2) ∧
      x2 - 3 = (3 - 0) / 5 * ((1 - 5 / avoidance_radius) * repulsion_strength) ∧
      y2 - 4 = (4 - 0) / 5 * ((1 - 5 / avoidance_radius) * repulsion_strength) ∧
      25 < (x2 - 0) * (x2 - 0) + (y2 - 0) * (y2 - 0) :=
  repel_inside_radius_pushes_away (fun _ => 5) 3 4 0 0 25 5 (by norm_num) rfl (by norm_num)
    (by norm_num) (by norm_num [avoidance_radius])

/-- For nonnegative elapsed time, the truncated remainder by the loop
duration is invariant under adding one full loop duration. -/
theorem f32Rem_add_period (t : ℚ) (ht : 0 ≤ t) : f32Rem (t + 30) 30 = f32Rem t 30 := by
  unfold f32Rem truncQ
  have h1 : (t + 30) / 30 = t / 30 + 1 := by ring
  have h2 : (0 : ℚ) ≤ t / 30 := by positivity
  rw [h1, if_pos h2, if_pos (by linarith : (0 : ℚ) ≤ t / 30 + 1), Int.floor_add_one]
  push_cast
  ring

/-- The wrapped phase `loop_time` is periodic with period `30`. -/
theorem loopTime_add_period (pi t : ℚ) (ht : 0 ≤ t) :
    loopTime pi (t + 30) = loopTime pi t := by
  unfold loopTime loop_duration
  rw [f32Rem_add_period t ht]

/-- Claim C4: for any nonnegative elapsed time `t` (elapsed times are
nonnegative), cursor position and frame bounds, the draw routine at `t + 30`
(one loop period) produces exactly the same shape placements as at `t`. -/
theorem draw_loop_period {R Θ : Type} (st : Unit) (renderer : R) (theme : Θ)
    (pi : ℚ) (c s sq : ℚ → ℚ) (ox oy bw bh : ℚ) (cursor : Option (ℚ × ℚ))
    (t : ℚ) (ht : 0 ≤ t) :
    KawaiiCanvas_draw st renderer theme pi c s sq ox oy bw bh cursor (t + 30) =
      KawaiiCanvas_draw st renderer theme pi c s sq ox oy bw bh cursor t := by
  unfold KawaiiCanvas_draw
  rw [loopTime_add_period pi t ht]

/-- Witness for C4 at `t = 0`: output at one full loop period equals output at
elapsed time zero (concrete oracles, bounds `200 × 100`, no cursor). -/
theorem draw_loop_period_witness :
    KawaiiCanvas_draw () () () 3 (fun _ => 1) (fun _ => 0) (fun _ => 0)
        0 0 200 100 none (0 + 30) =
      KawaiiCanvas_draw () () () 3 (fun _ => 1) (fun _ => 0) (fun _ => 0)
        0 0 200 100 none 0 :=
  draw_loop_period () () () 3 (fun _ => 1) (fun _ => 0) (fun _ => 0)
    0 0 200 100 none 0 le_rfl

/-- Claim C5: the draw routine is a pure function of elapsed time, cursor
position and frame bounds (given fixed arithmetic primitives): its output does
not depend on the canvas state, the renderer or the theme arguments — even
across different renderer and theme types — and two invocations with the same
elapsed time, cursor and bounds are the same function application, hence
produce identical placements. -/
theorem draw_pure_function {R1 R2 Θ1 Θ2 : Type} (st1 st2 : Unit)
    (r1 : R1) (r2 : R2) (th1 : Θ1) (th2 : Θ2)
    (pi : ℚ) (c s sq : ℚ → ℚ) (ox oy bw bh : ℚ)
    (cursor : Option (ℚ × ℚ)) (t : ℚ) :
    KawaiiCanvas_draw st1 r1 th1 pi c s sq ox oy bw bh cursor t =
      KawaiiCanvas_draw st2 r2 th2 pi c s sq ox oy bw bh cursor t := rfl

/-- Counterexample to claim C6: processing `Tick` at a concrete state leaves
the whole state — in particular the stored animation clock timestamp — exactly
as it was; the handler is `Message::Tick => {}`. -/
theorem tick_does_not_advance_clock :
    update Message.Tick (init ⟨""⟩ 5) = init ⟨""⟩ 5 ∧
      (update Message.Tick (init ⟨""⟩ 5)).animation_time = 5 := ⟨rfl, rfl⟩

/-- Claim C6 (amended): processing a `Tick` message leaves the application
state unchanged; the stored `animation_time` is the startup instant and is
never advanced by `Tick`, which merely triggers a redraw (elapsed time is
measured from the stored instant at draw time). -/
theorem tick_leaves_state_unchanged (s : AppModelS) : update Message.Tick s = s := rfl

/-- Counterexample to claim C7.  The claim asserts that with an undefined
cursor the repulsion step has no effect on any shape, for every frame and
time.  But the undefined cursor is replaced by the sentinel point `(-1, -1)`,
which is a genuine in-plane point: for a frame whose center puts a circle's
orbit near `(-1, -1)` (here center `(8314/101, 0)`, i.e. bounds
`16628/101 × 0`, circle `i = 1`, orbit radius `85`, with cosine and sine
values `-99/101` and `20/101` — a valid point on the unit circle), the orbit
position is `(-1, 1190/101)`, within distance `1291/101 < 20` of the
sentinel, so the repulsion step does move the shape. -/
theorem offcanvas_cursor_counterexample :
    ¬ (∀ (c s sq : ℚ → ℚ), (∀ θ, c θ ^ 2 + s θ ^ 2 = 1) →
        ∀ (ox oy bw bh lt : ℚ) (i : ℕ), i < 5 → 0 ≤ bw → 0 ≤ bh →
        0 ≤ sq (sqDist (orbitCircle c s (bw / 2) (bh / 2) lt i) (mousePos none ox oy)) →
        sq (sqDist (orbitCircle c s (bw / 2) (bh / 2) lt i) (mousePos none ox oy)) ^ 2 =
          sqDist (orbitCircle c s (bw / 2) (bh / 2) lt i) (mousePos none ox oy) →
        circlePos c s sq (bw / 2) (bh / 2) (mousePos none ox oy).1
            (mousePos none ox oy).2 lt i =
          some (orbitCircle c s (bw / 2) (bh / 2) lt i)) := by
  intro h
  have h2 := h (fun _ => -99 / 101) (fun _ => 20 / 101) (fun _ => 1291 / 101)
    (fun θ => by norm_num) 0 0 (16628 / 101) 0 0 1
    (by norm_num) (by norm_num) le_rfl (by norm_num)
    (by norm_num [sqDist, orbitCircle, circlePhase, mousePos])
  revert h2
  norm_num [circlePos, orbitCircle, repelStep, fdiv, mousePos, circlePhase,
    avoidance_radius, repulsion_strength]

/-- Claim C7 (amended): an undefined cursor is replaced by the sentinel point
`(-1, -1)`, and the repulsion step leaves unchanged every shape whose position
is at true distance at least the avoidance radius from that sentinel (which
holds for ordinary frames, but not for every frame, per the counterexample). -/
theorem offcanvas_cursor_amended (ox oy x y : ℚ) (sq : ℚ → ℚ)
    (hnn : 0 ≤ sq (sqDist (x, y) (-1, -1)))
    (hpy : sq (sqDist (x, y) (-1, -1)) ^ 2 = sqDist (x, y) (-1, -1))
    (hfar : avoidance_radius ^ 2 ≤ sqDist (x, y) (-1, -1)) :
    mousePos none ox oy = (-1, -1) ∧ repelStep sq x y (-1) (-1) = some (x, y) :=
  ⟨rfl, repelStep_of_far sq x y (-1) (-1) (le_sqrt_of_sq_le _ _ hnn hpy hfar)⟩

/-- Witness for the amended C7: the shape at `(19, 20)` is at distance `29`
from the sentinel `(-1, -1)` and is unchanged. -/
theorem offcanvas_cursor_amended_witness :
    mousePos none 0 0 = (-1, -1) ∧
      repelStep (fun _ => 29) 19 20 (-1) (-1) = some (19, 20) :=
  offcanvas_cursor_amended 0 0 19 20 (fun _ => 29) (by norm_num)
    (by norm_num [sqDist]) (by norm_num [sqDist, avoidance_radius])

/-- Claim C8: toggling the context page that is already active while the
drawer is open closes the drawer; toggling a different context page sets it
active and opens the drawer. -/
theorem toggle_context_page_spec (s : AppModelS) (cp : ContextPage) :
    (s.context_page = cp → s.show_context = true →
      (update (Message.ToggleContextPage cp) s).show_context = false) ∧
    (s.context_page ≠ cp →
      (update (Message.ToggleContextPage cp) s).context_page = cp ∧
      (update (Message.ToggleContextPage cp) s).show_context = true) := by
  constructor
  · intro h1 h2
    simp [update, h1, h2]
  · intro h1
    simp [update, h1]

/-- Witness for C8: starting from the initial state (context page `About`),
toggling `About` with the drawer open closes it; toggling `Settings` with
`About` active sets `Settings` active and opens the drawer. -/
theorem toggle_context_page_spec_witness :
    (update (Message.ToggleContextPage ContextPage.About)
        { init ⟨""⟩ 0 with show_context := true }).show_context = false ∧
    ((update (Message.ToggleContextPage ContextPage.Settings)
        (init ⟨""⟩ 0)).context_page = ContextPage.Settings ∧
      (update (Message.ToggleContextPage ContextPage.Settings)
        (init ⟨""⟩ 0)).show_context = true) :=
  ⟨(toggle_context_page_spec { init ⟨""⟩ 0 with show_context := true }
      ContextPage.About).1 rfl rfl,
   (toggle_context_page_spec (init ⟨""⟩ 0) ContextPage.Settings).2 (by decide)⟩

/-- Counterexample to claim C9: the phase offset applied to circle `1` is the
literal `1.2566`, which is not exactly `1 · (2π/5)`; the code's constants are
truncated decimal approximations of `2π/count`. -/
theorem phase_not_exact_two_pi_div_count :
    ¬ (((circlePhase 1 : ℚ) : ℝ) = 1 * (2 * Real.pi / 5)) := by
  intro h
  have hc : ((circlePhase 1 : ℚ) : ℝ) = 1.2566 := by
    norm_num [circlePhase]
  rw [hc] at h
  have hpi := Real.pi_gt_d6
  norm_num at h hpi
  linarith

/-- Claim C9 (amended): for each shape kind the phase offset of shape `i` is
`i` times a fixed per-kind constant (`1.2566`, `0.785`, `0.524`), so
consecutive shapes are evenly spaced by that constant, and each constant
approximates `2π/count` for the kind's count (5, 8, 12) to within `10⁻³` —
but not exactly, per the counterexample. -/
theorem phase_even_spacing_approx (i : ℕ) :
    circlePhase (i + 1) - circlePhase i = 1.2566 ∧
    heartPhase (i + 1) - heartPhase i = 0.785 ∧
    starPhase (i + 1) - starPhase i = 0.524 ∧
    |(1.2566 : ℝ) - 2 * Real.pi / 5| < 1 / 1000 ∧
    |(0.785 : ℝ) - 2 * Real.pi / 8| < 1 / 1000 ∧
    |(0.524 : ℝ) - 2 * Real.pi / 12| < 1 / 1000 := by
  have hlo := Real.pi_gt_d6
  have hhi := Real.pi_lt_d6
  norm_num at hlo hhi
  refine ⟨?_, ?_, ?_, ?_, ?_, ?_⟩
  · simp only [circlePhase]
    push_cast
    ring
  · simp only [heartPhase]
    push_cast
    ring
  · simp only [starPhase]
    push_cast
    ring
  · rw [abs_sub_lt_iff]
    constructor <;> linarith
  · rw [abs_sub_lt_iff]
    constructor <;> linarith
  · rw [abs_sub_lt_iff]
    constructor <;> linarith

/-- Claim C10: the popup dialog is produced exactly when the popup flag is set
and the active page is page 1; on pages 2 and 3 the dialog function returns
nothing even when the flag is set. -/
theorem dialog_iff_popup_on_page1 (s : AppModelS) :
    ((dialog s).isSome = true ↔
      (s.show_popup = true ∧ activePage s = Page.Page1)) ∧
    (activePage s ≠ Page.Page1 → dialog s = none) := by
  unfold dialog
  by_cases h : s.show_popup
  · cases hp : activePage s <;> simp [h, hp]
  · cases hp : activePage s <;> simp [h, hp]

/-- Witness for C10: with the flag set on page 2 the dialog is `none`; with
the flag set on page 1 it is shown. -/
theorem dialog_iff_popup_on_page1_witness :
    dialog { init ⟨""⟩ 0 with show_popup := true, navActive := some Page.Page2 } = none ∧
    (dialog { init ⟨""⟩ 0 with show_popup := true }).isSome = true :=
  ⟨(dialog_iff_popup_on_page1
      { init ⟨""⟩ 0 with show_popup := true, navActive := some Page.Page2 }).2 (by decide),
   (dialog_iff_popup_on_page1 { init ⟨""⟩ 0 with show_popup := true }).1.mpr ⟨rfl, rfl⟩⟩

end Libby
